import Mathlib

/-!
Verification of the session-facade core of dkb-robo
(`src/dkb_robo/dkb_robo.py`) against its specification.

The facade class `DKBRobo` is embedded shallowly: its instance attributes
become a Lean structure, each method becomes a function from that structure
(plus the behaviour of the externally supplied wrapper variant) to an updated
structure, a result, and a trace of the wrapper/validator calls it made.
The wrapper implementations (`dkb_robo.legacy.Wrapper`,
`dkb_robo.api.Wrapper`) and the date validator
(`dkb_robo.utilities.validate_dates`) are not part of the facade module;
they are modelled as arbitrary parameters (`WrapperBehavior`, a validator
function), so every theorem quantifies over their possible behaviours.
-/

/-- The two authentication-flow variants: `dkb_robo.legacy.Wrapper`
    (chosen when `legacy_login` holds) and `dkb_robo.api.Wrapper`. -/
inductive Variant where
  | Legacy
  | API
deriving DecidableEq, Repr

/-- The Python value stored in `mfa_device`: `None`, an integer, or a
    string (the CLI may supply the string form, e.g. `'m'`). -/
inductive MfaDevice where
  | none
  | num (n : Int)
  | str (s : String)
deriving DecidableEq, Repr

/-- Modelled from the spec: the error taxonomy of section 4.4.  The concrete
    wrapper modules that raise these are not under `src/`; the spec says every
    failure the facade surfaces derives from the single root `DKBRoboError`
    (declared at `dkb_robo.py` lines 10-11) and carries a human-readable
    message as its primary payload.  The sub-kinds are informational. -/
inductive DKBRoboError where
  | AuthenticationError (msg : String)
  | MFARequiredError (msg : String)
  | TransportError (msg : String)
  | SessionExpiredError (msg : String)
  | DateFormatError (msg : String)
  | DateRangeError (msg : String)
  | ConfigurationError (msg : String)
deriving DecidableEq, Repr

/-- The human-readable message payload of a `DKBRoboError`. -/
def DKBRoboError.message : DKBRoboError → String
  | .AuthenticationError m => m
  | .MFARequiredError m => m
  | .TransportError m => m
  | .SessionExpiredError m => m
  | .DateFormatError m => m
  | .DateRangeError m => m
  | .ConfigurationError m => m

/-- An account record as the facade hands it to callers (fields used by the
    CLI: `name`, `account`, `type`, `transactions`). -/
structure Account where
  name : String
  account : String
  atype : String
  transactions : String
deriving DecidableEq, Repr

/-- The account directory returned by `wrapper.login()` and stored in
    `self.account_dic`. -/
abbrev AccountDic := List (String × Account)

/-- A transaction record as returned by the wrapper (the facade never
    inspects the fields; they are carried through verbatim). -/
structure Transaction where
  ttype : String
  bdate : String
  amount : Int
  peer : String
  text : String
deriving DecidableEq, Repr

/-- One call the facade makes to an external collaborator: wrapper
    construction, a wrapper (network) method, or the date validator.
    Traces of these record what the facade invoked and in what order. -/
inductive Call where
  | constructLegacy (dkb_user dkb_password : Option String) (tan_insert : Bool)
  | constructApi (dkb_user dkb_password : Option String) (mfa_device : MfaDevice)
  | login
  | logout
  | getTransactions (url atype date_from date_to ttype : String)
  | getCreditLimits
  | getStandingOrders (uid : Option String)
  | getExemptionOrder
  | getPoints
  | scanPostbox (path : Option String) (download_all archive prepend_date : Bool)
  | validateDates (date_from date_to : String) (span : Nat) (legacy : Bool)
deriving DecidableEq, Repr

/-- Whether a call is a wrapper construction (no network action). -/
def Call.isConstruct : Call → Bool
  | .constructLegacy _ _ _ => true
  | .constructApi _ _ _ => true
  | _ => false

/-- The instance attributes of the `DKBRobo` facade class
    (`dkb_robo.py` lines 17-26 give the class-level defaults). -/
structure DKBRobo where
  dkb_user : Option String
  dkb_password : Option String
  tan_insert : Bool
  legacy_login : Bool
  mfa_device : MfaDevice
  proxies : List (String × String)
  last_login : Option String
  account_dic : AccountDic
  wrapper : Option Variant
deriving Repr

/-- The observable behaviour of the wrapper variant the facade delegates to.
    The wrapper modules are outside the facade source, so each facade theorem
    quantifies over an arbitrary `WrapperBehavior`: the result each wrapper
    method would produce (`Except.error` modelling a raised exception). -/
structure WrapperBehavior where
  loginResult : Except DKBRoboError (AccountDic × String)
  getTransactionsResult :
    String → String → String → String → String → Except DKBRoboError (List Transaction)
  getCreditLimitsResult : Except DKBRoboError (List (String × Int))
  getStandingOrdersResult : Option String → Except DKBRoboError (List String)
  getExemptionOrderResult : Except DKBRoboError String
  getPointsResult : Except DKBRoboError Int
  scanPostboxResult :
    Option String → Bool → Bool → Bool → Except DKBRoboError (List String)
  logoutResult : Except DKBRoboError Unit

/-- The outcome of running one facade method: the instance attributes after
    the method returns or raises (a Python object keeps any mutation made
    before the exception), the returned value or raised error, and the trace
    of external calls the method made, in order. -/
structure FacadeStep (α : Type) where
  st : DKBRobo
  result : Except DKBRoboError α
  trace : List Call
deriving Repr

/-- Embedding of `DKBRobo.__init__` (lines 28-34): stores credentials and
    configuration on the instance.  `debug` only configures the logger.  The
    remaining attributes keep their class-level defaults (lines 17-26):
    `proxies = {}`, `last_login = None`, `account_dic = {}`, `wrapper = None`.
    No wrapper is constructed and no network call is made. -/
def DKBRobo.init (dkb_user dkb_password : Option String)
    (tan_insert legacy_login debug : Bool) (mfa_device : MfaDevice) : DKBRobo :=
  { dkb_user := dkb_user
    dkb_password := dkb_password
    tan_insert := tan_insert
    legacy_login := legacy_login
    mfa_device := mfa_device
    proxies := []
    last_login := none
    account_dic := []
    wrapper := none }

/-- Embedding of `DKBRobo.__enter__` (lines 36-56):
    1. `if self.tan_insert: self.legacy_login = True`  (tan needs legacy);
    2. `if self.mfa_device == 'm': self.mfa_device = 1`;
    3. construct the legacy wrapper if `legacy_login` else the api wrapper;
    4. `(self.account_dic, self.last_login) = self.wrapper.login()`.
    If `login` raises, the tuple assignment in step 4 never happens, the
    exception propagates, and the attributes mutated in steps 1-3 remain. -/
def DKBRobo.enter (st : DKBRobo) (beh : WrapperBehavior) : FacadeStep Unit :=
  let st1 := if st.tan_insert then { st with legacy_login := true } else st
  let st2 :=
    if st1.mfa_device = MfaDevice.str "m" then { st1 with mfa_device := MfaDevice.num 1 }
    else st1
  let v := if st2.legacy_login then Variant.Legacy else Variant.API
  let st3 := { st2 with wrapper := some v }
  let ctrace :=
    if st2.legacy_login then
      [Call.constructLegacy st3.dkb_user st3.dkb_password st3.tan_insert]
    else
      [Call.constructApi st3.dkb_user st3.dkb_password st3.mfa_device]
  match beh.loginResult with
  | Except.error e =>
      { st := st3, result := Except.error e, trace := ctrace ++ [Call.login] }
  | Except.ok p =>
      { st := { st3 with account_dic := p.1, last_login := some p.2 }
        result := Except.ok ()
        trace := ctrace ++ [Call.login] }

/-- Embedding of `DKBRobo.__exit__` (lines 58-60): unconditionally calls
    `self.wrapper.logout()`; nothing is caught, so a logout failure
    propagates.  No instance attribute is assigned. -/
def DKBRobo.exitStep (st : DKBRobo) (beh : WrapperBehavior) : FacadeStep Unit :=
  { st := st, result := beh.logoutResult, trace := [Call.logout] }

/-- Python `with DKBRobo(...) as dkb: body` semantics: `__enter__` runs
    first; if it raises, `__exit__` is NOT called and the exception
    propagates.  Otherwise the body runs and `__exit__` runs on every body
    outcome; since `__exit__` returns `None` (falsy), a body exception
    propagates, and an exception from `__exit__` itself replaces the body
    outcome. -/
def withDKBRobo {α : Type} (st : DKBRobo) (beh : WrapperBehavior)
    (body : DKBRobo → Except DKBRoboError α × List Call) :
    Except DKBRoboError α × List Call :=
  let er := st.enter beh
  match er.result with
  | Except.error e => (Except.error e, er.trace)
  | Except.ok _ =>
      let b := body er.st
      let ex := er.st.exitStep beh
      match ex.result with
      | Except.error e2 => (Except.error e2, er.trace ++ b.2 ++ ex.trace)
      | Except.ok _ => (b.1, er.trace ++ b.2 ++ ex.trace)

/-- Embedding of `DKBRobo.get_credit_limits` (lines 62-65): a debug log, then
    a pure pass-through to `self.wrapper.get_credit_limits()`.  No instance
    attribute is assigned. -/
def DKBRobo.get_credit_limits (st : DKBRobo) (beh : WrapperBehavior) :
    FacadeStep (List (String × Int)) :=
  { st := st, result := beh.getCreditLimitsResult, trace := [Call.getCreditLimits] }

/-- Embedding of `DKBRobo.get_exemption_order` (lines 67-70): pass-through to
    `self.wrapper.get_exemption_order()`. -/
def DKBRobo.get_exemption_order (st : DKBRobo) (beh : WrapperBehavior) :
    FacadeStep String :=
  { st := st, result := beh.getExemptionOrderResult, trace := [Call.getExemptionOrder] }

/-- Embedding of `DKBRobo.get_points` (lines 72-75): pass-through to
    `self.wrapper.get_points()`. -/
def DKBRobo.get_points (st : DKBRobo) (beh : WrapperBehavior) :
    FacadeStep Int :=
  { st := st, result := beh.getPointsResult, trace := [Call.getPoints] }

/-- Embedding of `DKBRobo.get_standing_orders` (lines 77-80): pass-through to
    `self.wrapper.get_standing_orders(uid)`. -/
def DKBRobo.get_standing_orders (st : DKBRobo) (beh : WrapperBehavior)
    (uid : Option String) : FacadeStep (List String) :=
  { st := st, result := beh.getStandingOrdersResult uid
    trace := [Call.getStandingOrders uid] }

/-- Embedding of `DKBRobo.get_transactions` (lines 82-94):
    `(date_from, date_to) = validate_dates(logger, date_from, date_to, 3,
    self.legacy_login)` — note the literal span argument `3` regardless of
    the active variant (the per-variant branch at lines 86-88 is commented
    out in the source) — then
    `self.wrapper.get_transactions(url, atype, date_from, date_to, ttype)`
    on the normalized dates, returning the wrapper's list verbatim.  If the
    validator raises, the wrapper is never called.  `validate_dates` lives in
    `dkb_robo.utilities`, outside this module, so it is a parameter. -/
def DKBRobo.get_transactions (st : DKBRobo) (beh : WrapperBehavior)
    (validate_dates : String → String → Nat → Bool → Except DKBRoboError (String × String))
    (transaction_url atype date_from date_to transaction_type : String) :
    FacadeStep (List Transaction) :=
  let vcall := Call.validateDates date_from date_to 3 st.legacy_login
  match validate_dates date_from date_to 3 st.legacy_login with
  | Except.error e => { st := st, result := Except.error e, trace := [vcall] }
  | Except.ok p =>
      { st := st
        result := beh.getTransactionsResult transaction_url atype p.1 p.2 transaction_type
        trace :=
          [vcall, Call.getTransactions transaction_url atype p.1 p.2 transaction_type] }

/-- Embedding of `DKBRobo.scan_postbox` (lines 96-99): pass-through to
    `self.wrapper.scan_postbox(path, download_all, archive, prepend_date)`. -/
def DKBRobo.scan_postbox (st : DKBRobo) (beh : WrapperBehavior)
    (path : Option String) (download_all archive prepend_date : Bool) :
    FacadeStep (List String) :=
  { st := st, result := beh.scanPostboxResult path download_all archive prepend_date
    trace := [Call.scanPostbox path download_all archive prepend_date] }

/-- The span argument the facade handed to the date validator in this run
    (the validator call is always the first external call of
    `get_transactions`). -/
def FacadeStep.validateSpan {α : Type} (fs : FacadeStep α) : Option Nat :=
  match fs.trace.head? with
  | some (Call.validateDates _ _ n _) => some n
  | _ => none

/- Concrete fixtures used by counterexamples and witnesses. -/

/-- A sample account record. -/
def demoAccount : Account :=
  { name := "checking one", account := "DE01", atype := "account", transactions := "url1" }

/-- A wrapper behaviour whose every operation succeeds. -/
def okBeh : WrapperBehavior :=
  { loginResult := Except.ok ([("DE01", demoAccount)], "2024-01-01 08:00:00")
    getTransactionsResult := fun _ _ _ _ _ => Except.ok []
    getCreditLimitsResult := Except.ok [("DE01", 1000)]
    getStandingOrdersResult := fun _ => Except.ok []
    getExemptionOrderResult := Except.ok "exemption"
    getPointsResult := Except.ok 42
    scanPostboxResult := fun _ _ _ _ => Except.ok []
    logoutResult := Except.ok () }

/-- A wrapper behaviour whose `login` raises `MFARequiredError` and whose
    other operations succeed. -/
def loginFailBeh : WrapperBehavior :=
  { okBeh with loginResult := Except.error (DKBRoboError.MFARequiredError "mfa never confirmed") }

/-- A wrapper behaviour whose every operation raises the same error. -/
def errBeh (e : DKBRoboError) : WrapperBehavior :=
  { loginResult := Except.error e
    getTransactionsResult := fun _ _ _ _ _ => Except.error e
    getCreditLimitsResult := Except.error e
    getStandingOrdersResult := fun _ => Except.error e
    getExemptionOrderResult := Except.error e
    getPointsResult := Except.error e
    scanPostboxResult := fun _ _ _ _ => Except.error e
    logoutResult := Except.ok () }

/-- A validator that accepts every range unchanged. -/
def idValidate : String → String → Nat → Bool → Except DKBRoboError (String × String) :=
  fun date_from date_to _ _ => Except.ok (date_from, date_to)

/-- A validator that rejects every range with `DateRangeError`. -/
def rejectValidate : String → String → Nat → Bool → Except DKBRoboError (String × String) :=
  fun _ _ _ _ => Except.error (DKBRoboError.DateRangeError "Invalid date range")

/-- A facade configured for the legacy variant (after entry,
    `legacy_login = True`, `wrapper = Legacy`). -/
def legacyFacade : DKBRobo :=
  { dkb_user := some "u", dkb_password := some "p", tan_insert := true
    legacy_login := true, mfa_device := MfaDevice.none, proxies := []
    last_login := some "2024-01-01 08:00:00", account_dic := [("DE01", demoAccount)]
    wrapper := some Variant.Legacy }

/-- A facade configured for the API variant (after entry,
    `legacy_login = False`, `wrapper = API`). -/
def apiFacade : DKBRobo :=
  { dkb_user := some "u", dkb_password := some "p", tan_insert := false
    legacy_login := false, mfa_device := MfaDevice.num 1, proxies := []
    last_login := some "2024-01-01 08:00:00", account_dic := [("DE01", demoAccount)]
    wrapper := some Variant.API }

/-- Helper: `__enter__` always traces exactly one wrapper construction
    followed by the single `login` call, and the wrapper selected is Legacy
    exactly when `tan_insert || legacy_login` held at entry. -/
theorem enter_trace_shape (st : DKBRobo) (beh : WrapperBehavior) :
    (st.enter beh).st.wrapper
      = some (if st.tan_insert || st.legacy_login then Variant.Legacy else Variant.API)
    ∧ ∃ c, (st.enter beh).trace = [c, Call.login] ∧ c.isConstruct = true := by
  obtain ⟨u, p, ti, ll, md, px, la, dic, w⟩ := st
  unfold DKBRobo.enter
  cases hl : beh.loginResult with
  | error e =>
      cases ti <;> cases ll <;>
        by_cases hm : md = MfaDevice.str "m" <;>
          simp [hm, Call.isConstruct]
  | ok pr =>
      cases ti <;> cases ll <;>
        by_cases hm : md = MfaDevice.str "m" <;>
          simp [hm, Call.isConstruct]

/-- C1 counterexample: a configuration with TAN-insertion flag false but the
    constructor's `legacy_login` flag true selects the Legacy variant, not
    the API variant — refuting "if the TAN-insertion flag is false the API
    variant is selected" for this configuration. -/
theorem legacy_flag_overrides_api_selection :
    (DKBRobo.init (some "u") (some "p") false true false MfaDevice.none).tan_insert = false
    ∧ ((DKBRobo.init (some "u") (some "p") false true false MfaDevice.none).enter okBeh).st.wrapper
        = some Variant.Legacy
    ∧ ((DKBRobo.init (some "u") (some "p") false true false MfaDevice.none).enter okBeh).st.wrapper
        ≠ some Variant.API := by
  refine ⟨rfl, rfl, ?_⟩
  intro h
  simp [DKBRobo.init, DKBRobo.enter, okBeh] at h

/-- C1 (amended): variant selection at scope entry is deterministic and
    evaluated once before the single network call (`login`): the Legacy
    variant is selected exactly when the TAN-insertion flag or the
    constructor-supplied legacy-login flag is true; only when both are false
    is the API variant selected. -/
theorem variant_selection_rule (st : DKBRobo) (beh : WrapperBehavior) :
    (st.enter beh).st.wrapper
      = some (if st.tan_insert || st.legacy_login then Variant.Legacy else Variant.API)
    ∧ ∃ c, (st.enter beh).trace = [c, Call.login] ∧ c.isConstruct = true :=
  enter_trace_shape st beh

/-- C8: construction stores configuration only: afterwards the `wrapper`
    attribute still holds its class default `None`, the account directory and
    last-login hold their defaults, and no external call has been made;
    variant construction and the `login` network call happen only at scope
    entry (the entry trace is one construction followed by `login`). -/
theorem construction_no_network_no_variant (u p : Option String)
    (ti ll d : Bool) (m : MfaDevice) (beh : WrapperBehavior) :
    (DKBRobo.init u p ti ll d m).wrapper = none
    ∧ (DKBRobo.init u p ti ll d m).account_dic = []
    ∧ (DKBRobo.init u p ti ll d m).last_login = none
    ∧ ∃ c, ((DKBRobo.init u p ti ll d m).enter beh).trace = [c, Call.login]
        ∧ c.isConstruct = true :=
  ⟨rfl, rfl, rfl, (enter_trace_shape _ beh).2⟩

/-- C10: at scope entry with `mfa_device == 'm'` and `tan_insert` true, the
    device selector is normalized to the integer 1 and `legacy_login` is set
    to true; both mutations persist on the instance after entry (whatever
    `login` then does), and they precede wrapper construction: the Legacy
    wrapper is the one constructed, already seeing `tan_insert = True`. -/
theorem entry_normalizes_mfa_and_legacy_flag (st : DKBRobo) (beh : WrapperBehavior)
    (h1 : st.mfa_device = MfaDevice.str "m") (h2 : st.tan_insert = true) :
    (st.enter beh).st.mfa_device = MfaDevice.num 1
    ∧ (st.enter beh).st.legacy_login = true
    ∧ (st.enter beh).trace
        = [Call.constructLegacy st.dkb_user st.dkb_password true, Call.login] := by
  obtain ⟨u, p, ti, ll, md, px, la, dic, w⟩ := st
  simp only at h1 h2
  subst h1 h2
  unfold DKBRobo.enter
  cases hl : beh.loginResult <;> simp

/-- C10 witness: the theorem applied to a concrete facade constructed with
    `tan_insert=True`, `mfa_device='m'`. -/
theorem entry_normalizes_mfa_and_legacy_flag_witness :
    ((DKBRobo.init (some "u") (some "p") true false false (MfaDevice.str "m")).enter okBeh).st.mfa_device
      = MfaDevice.num 1
    ∧ ((DKBRobo.init (some "u") (some "p") true false false (MfaDevice.str "m")).enter okBeh).st.legacy_login
      = true
    ∧ ((DKBRobo.init (some "u") (some "p") true false false (MfaDevice.str "m")).enter okBeh).trace
      = [Call.constructLegacy (some "u") (some "p") true, Call.login] :=
  entry_normalizes_mfa_and_legacy_flag _ okBeh rfl rfl

/-- Helper: `__enter__` never calls `logout` (its trace is a construction
    and `login`). -/
theorem logout_not_mem_enter_trace (st : DKBRobo) (beh : WrapperBehavior) :
    Call.logout ∉ (st.enter beh).trace := by
  obtain ⟨c, htr, hc⟩ := (enter_trace_shape st beh).2
  rw [htr]
  intro hmem
  rcases List.mem_pair.mp hmem with h | h
  · rw [← h] at hc
    simp [Call.isConstruct] at hc
  · exact absurd h (by simp)

/-- Helper: `__enter__` returns normally exactly when `wrapper.login()`
    does, and raises exactly the error `login` raised. -/
theorem enter_result_spec (st : DKBRobo) (beh : WrapperBehavior) :
    (st.enter beh).result
      = (match beh.loginResult with
         | Except.error e => Except.error e
         | Except.ok _ => Except.ok ()) := by
  unfold DKBRobo.enter
  cases hl : beh.loginResult <;> simp

/-- C2 counterexample: when `wrapper.login()` raises inside `__enter__`,
    Python never invokes `__exit__`, so `logout` is NOT attempted — refuting
    the clause "if login itself fails during scope entry, logout is still
    attempted defensively". -/
theorem no_logout_when_login_fails :
    loginFailBeh.loginResult
      = Except.error (DKBRoboError.MFARequiredError "mfa never confirmed")
    ∧ Call.logout ∉
        (withDKBRobo (DKBRobo.init (some "u") (some "p") false false false MfaDevice.none)
          loginFailBeh (fun _ => (Except.ok (0 : Nat), []))).2 := by
  refine ⟨rfl, ?_⟩
  exact logout_not_mem_enter_trace _ loginFailBeh

/-- C2 (amended): when `__enter__` succeeds, every exit path of the facade
    scope (normal return or raised error in the body) invokes the active
    variant's `logout` exactly once; but when `login` fails during scope
    entry, the error propagates and `logout` is NOT attempted at all —
    `__exit__` never runs for a failed `__enter__`. -/
theorem logout_on_scope_exit {α : Type} (st : DKBRobo) (beh : WrapperBehavior)
    (body : DKBRobo → Except DKBRoboError α × List Call)
    (hbody : ∀ s, Call.logout ∉ (body s).2) :
    ((st.enter beh).result = Except.ok () →
        (withDKBRobo st beh body).2.count Call.logout = 1)
    ∧ (∀ e, beh.loginResult = Except.error e →
        (withDKBRobo st beh body).1 = Except.error e
        ∧ Call.logout ∉ (withDKBRobo st beh body).2) := by
  constructor
  · intro hok
    unfold withDKBRobo
    simp only [hok]
    have h1 : ((st.enter beh).trace).count Call.logout = 0 :=
      List.count_eq_zero.mpr (logout_not_mem_enter_trace st beh)
    have h2 : ((body (st.enter beh).st).2).count Call.logout = 0 :=
      List.count_eq_zero.mpr (hbody _)
    cases hlo : beh.logoutResult <;>
      simp [DKBRobo.exitStep, hlo, List.count_append, h1, h2]
  · intro e he
    have hres : (st.enter beh).result = Except.error e := by
      rw [enter_result_spec, he]
    unfold withDKBRobo
    simp only [hres]
    exact ⟨trivial, logout_not_mem_enter_trace st beh⟩

/-- C2 witness: with a succeeding wrapper, the scope runs `logout` exactly
    once; with a wrapper whose `login` fails, `logout` never appears in the
    trace. -/
theorem logout_on_scope_exit_witness :
    (withDKBRobo (DKBRobo.init (some "u") (some "p") false false false MfaDevice.none) okBeh
        (fun s => (Except.ok s.account_dic, []))).2.count Call.logout = 1
    ∧ Call.logout ∉
        (withDKBRobo (DKBRobo.init (some "u") (some "p") false false false MfaDevice.none)
          loginFailBeh (fun s => (Except.ok s.account_dic, []))).2 := by
  constructor
  · exact (logout_on_scope_exit _ okBeh _ (fun s => by simp)).1 rfl
  · exact ((logout_on_scope_exit _ loginFailBeh _ (fun s => by simp)).2 _ rfl).2

/-- A concrete demonstration error. -/
def demoErr : DKBRoboError := DKBRoboError.AuthenticationError "access denied"

/-- C3: the facade wraps no handler around any operation, so a wrapper-level
    error raised during login or any read propagates to the caller unchanged:
    the surfaced value is of the single root kind `DKBRoboError` and its
    message is the original message.  (The wrapper modules are outside the
    facade source; per the spec's section 4.4 their errors are modelled as
    sub-kinds of the root `DKBRoboError` declared at `dkb_robo.py` 10-11.) -/
theorem facade_error_passthrough (st : DKBRobo) (beh : WrapperBehavior)
    (val : String → String → Nat → Bool → Except DKBRoboError (String × String))
    (url atype df dt tt : String) (uid path : Option String)
    (da ar pd : Bool) (e : DKBRoboError) :
    (beh.loginResult = Except.error e →
      ∃ e2 : DKBRoboError, (st.enter beh).result = Except.error e2
        ∧ e2.message = e.message)
    ∧ (∀ p, val df dt 3 st.legacy_login = Except.ok p →
        beh.getTransactionsResult url atype p.1 p.2 tt = Except.error e →
        ∃ e2 : DKBRoboError,
          (st.get_transactions beh val url atype df dt tt).result = Except.error e2
          ∧ e2.message = e.message)
    ∧ (beh.getCreditLimitsResult = Except.error e →
        ∃ e2 : DKBRoboError, (st.get_credit_limits beh).result = Except.error e2
          ∧ e2.message = e.message)
    ∧ (beh.getStandingOrdersResult uid = Except.error e →
        ∃ e2 : DKBRoboError, (st.get_standing_orders beh uid).result = Except.error e2
          ∧ e2.message = e.message)
    ∧ (beh.getExemptionOrderResult = Except.error e →
        ∃ e2 : DKBRoboError, (st.get_exemption_order beh).result = Except.error e2
          ∧ e2.message = e.message)
    ∧ (beh.getPointsResult = Except.error e →
        ∃ e2 : DKBRoboError, (st.get_points beh).result = Except.error e2
          ∧ e2.message = e.message)
    ∧ (beh.scanPostboxResult path da ar pd = Except.error e →
        ∃ e2 : DKBRoboError, (st.scan_postbox beh path da ar pd).result = Except.error e2
          ∧ e2.message = e.message) := by
  refine ⟨?_, ?_, ?_, ?_, ?_, ?_, ?_⟩
  · intro h
    refine ⟨e, ?_, rfl⟩
    rw [enter_result_spec, h]
  · intro p hv hw
    refine ⟨e, ?_, rfl⟩
    simp [DKBRobo.get_transactions, hv, hw]
  · intro h
    exact ⟨e, by simp [DKBRobo.get_credit_limits, h], rfl⟩
  · intro h
    exact ⟨e, by simp [DKBRobo.get_standing_orders, h], rfl⟩
  · intro h
    exact ⟨e, by simp [DKBRobo.get_exemption_order, h], rfl⟩
  · intro h
    exact ⟨e, by simp [DKBRobo.get_points, h], rfl⟩
  · intro h
    exact ⟨e, by simp [DKBRobo.scan_postbox, h], rfl⟩

/-- C3 witness: the theorem applied to a wrapper whose every operation
    raises `AuthenticationError "access denied"`. -/
theorem facade_error_passthrough_witness :
    (∃ e2 : DKBRoboError,
        (apiFacade.enter (errBeh demoErr)).result = Except.error e2
        ∧ e2.message = demoErr.message)
    ∧ (∃ e2 : DKBRoboError,
        (apiFacade.get_transactions (errBeh demoErr) idValidate
            "url1" "account" "01.01.2024" "01.03.2024" "booked").result = Except.error e2
        ∧ e2.message = demoErr.message)
    ∧ (∃ e2 : DKBRoboError,
        (apiFacade.get_credit_limits (errBeh demoErr)).result = Except.error e2
        ∧ e2.message = demoErr.message)
    ∧ (∃ e2 : DKBRoboError,
        (apiFacade.get_standing_orders (errBeh demoErr) none).result = Except.error e2
        ∧ e2.message = demoErr.message)
    ∧ (∃ e2 : DKBRoboError,
        (apiFacade.get_exemption_order (errBeh demoErr)).result = Except.error e2
        ∧ e2.message = demoErr.message)
    ∧ (∃ e2 : DKBRoboError,
        (apiFacade.get_points (errBeh demoErr)).result = Except.error e2
        ∧ e2.message = demoErr.message)
    ∧ (∃ e2 : DKBRoboError,
        (apiFacade.scan_postbox (errBeh demoErr) none false false false).result
          = Except.error e2
        ∧ e2.message = demoErr.message) := by
  have h := facade_error_passthrough apiFacade (errBeh demoErr) idValidate
    "url1" "account" "01.01.2024" "01.03.2024" "booked" none none false false false demoErr
  exact ⟨h.1 rfl, h.2.1 ("01.01.2024", "01.03.2024") rfl rfl, h.2.2.1 rfl,
    h.2.2.2.1 rfl, h.2.2.2.2.1 rfl, h.2.2.2.2.2.1 rfl, h.2.2.2.2.2.2 rfl⟩

/-- C4 counterexample: `get_transactions` hands the date validator the
    literal span limit `3` for a legacy-variant facade AND for an
    API-variant facade — the span limit the facade uses is the universal
    constant `3`, not a per-variant configurable parameter (the per-variant
    branch at `dkb_robo.py` lines 86-88 is commented out). -/
theorem span_limit_universal_constant :
    legacyFacade.wrapper = some Variant.Legacy
    ∧ apiFacade.wrapper = some Variant.API
    ∧ (legacyFacade.get_transactions okBeh idValidate
        "url1" "account" "01.01.2024" "01.03.2024" "booked").validateSpan = some 3
    ∧ (apiFacade.get_transactions okBeh idValidate
        "url1" "account" "01.01.2024" "01.03.2024" "booked").validateSpan = some 3 :=
  ⟨rfl, rfl, rfl, rfl⟩

/-- C4 (amended): `get_transactions` always routes the date arguments
    through the Date Validator first, but with the universal constant `3` as
    the maximum-span argument for both variants; the only variant-dependent
    input to the validator is the `legacy_login` flag. -/
theorem transactions_validate_span_three (st : DKBRobo) (beh : WrapperBehavior)
    (val : String → String → Nat → Bool → Except DKBRoboError (String × String))
    (url atype df dt tt : String) :
    (st.get_transactions beh val url atype df dt tt).trace.head?
      = some (Call.validateDates df dt 3 st.legacy_login) := by
  unfold DKBRobo.get_transactions
  cases hv : val df dt 3 st.legacy_login <;> simp

/-- C5: when the date validator rejects the range, `get_transactions` raises
    that validation error and its external-call trace is the validator call
    alone: no wrapper method (and hence no network call) is ever invoked
    with the unvalidated range. -/
theorem validation_failure_blocks_wrapper (st : DKBRobo) (beh : WrapperBehavior)
    (val : String → String → Nat → Bool → Except DKBRoboError (String × String))
    (url atype df dt tt : String) (e : DKBRoboError)
    (hv : val df dt 3 st.legacy_login = Except.error e) :
    (st.get_transactions beh val url atype df dt tt).result = Except.error e
    ∧ (st.get_transactions beh val url atype df dt tt).trace
        = [Call.validateDates df dt 3 st.legacy_login] := by
  unfold DKBRobo.get_transactions
  simp [hv]

/-- C5 witness: the spec scenario `date_from="10.01.2020"`,
    `date_to="10.01.2030"` with a validator that rejects the range: the call
    fails with `DateRangeError` and only the validator call is traced. -/
theorem validation_failure_blocks_wrapper_witness :
    (apiFacade.get_transactions okBeh rejectValidate
        "url1" "account" "10.01.2020" "10.01.2030" "booked").result
      = Except.error (DKBRoboError.DateRangeError "Invalid date range")
    ∧ (apiFacade.get_transactions okBeh rejectValidate
        "url1" "account" "10.01.2020" "10.01.2030" "booked").trace
      = [Call.validateDates "10.01.2020" "10.01.2030" 3 apiFacade.legacy_login] :=
  validation_failure_blocks_wrapper apiFacade okBeh rejectValidate
    "url1" "account" "10.01.2020" "10.01.2030" "booked" _ rfl

/-- C6: whatever transaction list the wrapper returns for the validated
    range, the facade's `get_transactions` returns exactly that list —
    unmodified and in the same order; in particular an empty wrapper result
    yields `Except.ok []`, not an error. -/
theorem transactions_passthrough_unmodified (st : DKBRobo) (beh : WrapperBehavior)
    (val : String → String → Nat → Bool → Except DKBRoboError (String × String))
    (url atype df dt tt : String) (p : String × String) (lst : List Transaction)
    (hv : val df dt 3 st.legacy_login = Except.ok p)
    (hw : beh.getTransactionsResult url atype p.1 p.2 tt = Except.ok lst) :
    (st.get_transactions beh val url atype df dt tt).result = Except.ok lst := by
  unfold DKBRobo.get_transactions
  simp [hv, hw]

/-- Five sample booked transactions, in a fixed order. -/
def fiveTx : List Transaction :=
  [{ ttype := "booked", bdate := "02.01.2024", amount := -10, peer := "shop a", text := "t1" },
   { ttype := "booked", bdate := "05.01.2024", amount := 250, peer := "employer", text := "t2" },
   { ttype := "booked", bdate := "17.01.2024", amount := -42, peer := "shop b", text := "t3" },
   { ttype := "booked", bdate := "02.02.2024", amount := -7, peer := "shop a", text := "t4" },
   { ttype := "booked", bdate := "29.02.2024", amount := -99, peer := "shop c", text := "t5" }]

/-- A wrapper behaviour returning `fiveTx` for `booked` queries and the
    empty list for every other transaction type. -/
def txBeh : WrapperBehavior :=
  { okBeh with
    getTransactionsResult := fun _ _ _ _ tt =>
      if tt = "booked" then Except.ok fiveTx else Except.ok [] }

/-- C6 witness: with TAN flag false and range 01.01.2024-01.03.2024, a
    wrapper returning five booked transactions yields exactly those five in
    order, and the same window with zero reserved transactions yields the
    empty sequence, not an error. -/
theorem transactions_passthrough_unmodified_witness :
    (apiFacade.get_transactions txBeh idValidate
        "url1" "account" "01.01.2024" "01.03.2024" "booked").result = Except.ok fiveTx
    ∧ (apiFacade.get_transactions txBeh idValidate
        "url1" "account" "01.01.2024" "01.03.2024" "reserved").result
      = Except.ok ([] : List Transaction) := by
  constructor
  · exact transactions_passthrough_unmodified apiFacade txBeh idValidate
      "url1" "account" "01.01.2024" "01.03.2024" "booked"
      ("01.01.2024", "01.03.2024") fiveTx rfl (by simp [txBeh])
  · exact transactions_passthrough_unmodified apiFacade txBeh idValidate
      "url1" "account" "01.01.2024" "01.03.2024" "reserved"
      ("01.01.2024", "01.03.2024") [] rfl (by simp [txBeh])

/-- Helper: when `wrapper.login()` raises, the attributes assigned by the
    tuple assignment of line 54 keep their previous values. -/
theorem enter_error_preserves_accounts (st : DKBRobo) (beh : WrapperBehavior)
    (e : DKBRoboError) (h : beh.loginResult = Except.error e) :
    (st.enter beh).st.account_dic = st.account_dic
    ∧ (st.enter beh).st.last_login = st.last_login := by
  obtain ⟨u, p, ti, ll, md, px, la, dic, w⟩ := st
  unfold DKBRobo.enter
  simp only [h]
  cases ti <;> by_cases hm : md = MfaDevice.str "m" <;> simp [hm]

/-- C7: if the variant's `login` raises during scope entry, the facade's
    account directory and last-login attributes are untouched — they are
    assigned only by the tuple assignment that follows a successful
    `login()`, so a caller observes the pre-entry values (the class defaults
    `{}` / `None` for a fresh instance), never a partially-filled mapping. -/
theorem login_failure_leaves_accounts_unset (st : DKBRobo) (beh : WrapperBehavior)
    (e : DKBRoboError) (h : beh.loginResult = Except.error e) :
    (st.enter beh).result = Except.error e
    ∧ (st.enter beh).st.account_dic = st.account_dic
    ∧ (st.enter beh).st.last_login = st.last_login := by
  refine ⟨?_, enter_error_preserves_accounts st beh e h⟩
  rw [enter_result_spec, h]

/-- C7 witness: a fresh facade whose wrapper never completes MFA: entry
    fails with `MFARequiredError` and the account directory and last-login
    still hold the class defaults `[]` / `none`. -/
theorem login_failure_leaves_accounts_unset_witness :
    ((DKBRobo.init (some "u") (some "p") true false false MfaDevice.none).enter
        loginFailBeh).result
      = Except.error (DKBRoboError.MFARequiredError "mfa never confirmed")
    ∧ ((DKBRobo.init (some "u") (some "p") true false false MfaDevice.none).enter
        loginFailBeh).st.account_dic
      = (DKBRobo.init (some "u") (some "p") true false false MfaDevice.none).account_dic
    ∧ ((DKBRobo.init (some "u") (some "p") true false false MfaDevice.none).enter
        loginFailBeh).st.last_login
      = (DKBRobo.init (some "u") (some "p") true false false MfaDevice.none).last_login :=
  login_failure_leaves_accounts_unset _ loginFailBeh _ rfl

/-- Helper: `get_transactions` assigns no instance attribute, whatever the
    validator says. -/
theorem get_transactions_state_unchanged (st : DKBRobo) (beh : WrapperBehavior)
    (val : String → String → Nat → Bool → Except DKBRoboError (String × String))
    (url atype df dt tt : String) :
    (st.get_transactions beh val url atype df dt tt).st = st := by
  unfold DKBRobo.get_transactions
  cases hv : val df dt 3 st.legacy_login <;> simp

/-- Helper: a successful `login()` overwrites `account_dic` and
    `last_login` with exactly the pair the wrapper returned. -/
theorem enter_ok_sets_accounts (st : DKBRobo) (beh : WrapperBehavior)
    (dic : AccountDic) (ll : String) (h : beh.loginResult = Except.ok (dic, ll)) :
    (st.enter beh).st.account_dic = dic ∧ (st.enter beh).st.last_login = some ll := by
  obtain ⟨u, p, ti, lf, md, px, la, ad, w⟩ := st
  unfold DKBRobo.enter
  simp only [h]
  cases ti <;> by_cases hm : md = MfaDevice.str "m" <;> simp [hm]

/-- C9: the account directory is built fresh by each login — a successful
    `__enter__` stores exactly the directory and last-login the wrapper's
    `login()` returned — and no read operation (`get_transactions`,
    `get_credit_limits`, `get_standing_orders`, `get_exemption_order`,
    `get_points`, `scan_postbox`) assigns the stored `account_dic` or
    `last_login`: each leaves every instance attribute as it was. -/
theorem reads_preserve_account_state (st : DKBRobo) (beh : WrapperBehavior)
    (val : String → String → Nat → Bool → Except DKBRoboError (String × String))
    (url atype df dt tt : String) (uid path : Option String) (da ar pd : Bool)
    (dic : AccountDic) (ll : String)
    (h : beh.loginResult = Except.ok (dic, ll)) :
    ((st.enter beh).st.account_dic = dic ∧ (st.enter beh).st.last_login = some ll)
    ∧ (st.get_transactions beh val url atype df dt tt).st = st
    ∧ (st.get_credit_limits beh).st = st
    ∧ (st.get_standing_orders beh uid).st = st
    ∧ (st.get_exemption_order beh).st = st
    ∧ (st.get_points beh).st = st
    ∧ (st.scan_postbox beh path da ar pd).st = st :=
  ⟨enter_ok_sets_accounts st beh dic ll h,
   get_transactions_state_unchanged st beh val url atype df dt tt,
   rfl, rfl, rfl, rfl, rfl⟩

/-- C9 witness: the theorem applied to a concrete facade and a wrapper
    whose login returns one account. -/
theorem reads_preserve_account_state_witness :
    (((apiFacade.enter okBeh).st.account_dic = [("DE01", demoAccount)]
        ∧ (apiFacade.enter okBeh).st.last_login = some "2024-01-01 08:00:00")
    ∧ (apiFacade.get_transactions okBeh idValidate
        "url1" "account" "01.01.2024" "01.03.2024" "booked").st = apiFacade
    ∧ (apiFacade.get_credit_limits okBeh).st = apiFacade
    ∧ (apiFacade.get_standing_orders okBeh none).st = apiFacade
    ∧ (apiFacade.get_exemption_order okBeh).st = apiFacade
    ∧ (apiFacade.get_points okBeh).st = apiFacade
    ∧ (apiFacade.scan_postbox okBeh none false false false).st = apiFacade) :=
  reads_preserve_account_state apiFacade okBeh idValidate
    "url1" "account" "01.01.2024" "01.03.2024" "booked" none none false false false
    [("DE01", demoAccount)] "2024-01-01 08:00:00" rfl
